import Mathlib

/-!
Verification of the data-collector agent's ingestion orchestrator and
storage layer, shallowly embedded from the Python sources:

* `data_collector_agent/core/storage.py` — `PostgresDataStorage`
  (`_determine_table_schema`, `_create_table`, `store_data`) and
  `DataStorage` (`_store_to_file`, `_store_to_csv`);
* `data_collector_agent/collectors/base.py` — `BaseDataCollector`
  (`run`, `stop`, `_sleep_until_next_interval`);
* `data_collector_agent/core/agent.py` — `DataCollectorAgent._process_data`;
* `data_collector_agent/core/utils.py` — `solve_captcha`.
-/

/-- A Python field value as it occurs in collected records: one of string,
integer, float, boolean, None, list, or nested dict (ordered mapping). Floats
are carried as rationals; no theorem below depends on float rounding. -/
inductive Value where
  | VStr (s : String)
  | VInt (n : Int)
  | VFloat (q : Rat)
  | VBool (b : Bool)
  | VNull
  | VList (items : List Value)
  | VDict (fields : List (String × Value))

/-- A record: an ordered mapping of field names to values (a Python dict,
iterated in insertion order). -/
abbrev Record := List (String × Value)

/-- An inferred table schema: ordered mapping column name → column type tag. -/
abbrev Schema := List (String × String)

/-- The relational state visible to the model: table name → schema of the
existing table. -/
abbrev DB := List (String × Schema)

/-- First-binding association-list lookup: the model of Python dict access
(`data.get(key)`, `key in data`). -/
def alistLookup {α : Type} : List (String × α) → String → Option α
  | [], _ => none
  | (k, v) :: rest, key => if k = key then some v else alistLookup rest key

/-- Python `key in data` on a record. -/
def hasKey (data : Record) (key : String) : Bool :=
  (alistLookup data key).isSome

/-- Python `isinstance(v, str)`. -/
def isStrV : Value → Bool
  | .VStr _ => true
  | _ => false

/-- Python `isinstance(v, (int, float))`. In Python `bool` is a subclass of
`int`, so booleans satisfy this test as well. -/
def isIntOrFloat : Value → Bool
  | .VInt _ => true
  | .VFloat _ => true
  | .VBool _ => true
  | _ => false

/-- Python `v is None`. -/
def isNullV : Value → Bool
  | .VNull => true
  | _ => false

/-- The per-field branch of `PostgresDataStorage._determine_table_schema`:
the key check for `raw_data` comes first; then `isinstance` checks for str,
int, float, list, dict in source order; a `None` value yields no column.
Python's `isinstance(value, int)` is true for booleans, so `VBool` takes the
`BIGINT` branch. The source's trailing `else: TEXT` default is unreachable
over this closed value type. -/
def inferColType (key : String) (value : Value) : Option String :=
  if key = "raw_data" then some "JSONB"
  else
    match value with
    | .VStr _ => some "TEXT"
    | .VInt _ => some "BIGINT"
    | .VBool _ => some "BIGINT"
    | .VFloat _ => some "DOUBLE PRECISION"
    | .VList items =>
        if items.all isStrV then some "TEXT[]"
        else if items.all isIntOrFloat then some "DOUBLE PRECISION[]"
        else some "JSONB"
    | .VDict _ => some "JSONB"
    | .VNull => none

/-- `PostgresDataStorage._determine_table_schema`: builds the schema dict by
iterating the record's fields in order, assigning each field the column type
given by `inferColType`, and skipping fields whose value is `None`. -/
def determine_table_schema (data : Record) : Schema :=
  data.filterMap (fun kv => (inferColType kv.1 kv.2).map (fun ty => (kv.1, ty)))

/-- Python `str(v)` as used in the f-string `f"{source}_{data_type}"` of
`store_data` and in the path building of `_store_to_file` / `_store_to_csv`.
Records reaching the sink carry string `source` / `data_type` / `asset`
fields, so only the string case (identity) is exercised by any theorem
below; the remaining cases use a fixed canonical rendering. -/
def pyStr : Value → String
  | .VStr s => s
  | .VInt n => toString n
  | .VFloat q => toString q
  | .VBool b => if b then "True" else "False"
  | .VNull => "None"
  | .VList _ => "<list>"
  | .VDict _ => "<dict>"

/-- Python `data.get(key, default)` followed by string conversion, the
pattern used for `source`, `data_type` and `asset` in every storage
variant. -/
def pyGetStr (data : Record) (key dflt : String) : String :=
  match alistLookup data key with
  | some v => pyStr v
  | none => dflt

/-- The relational sink's table name `f"{source}_{data_type}"`, with
`data.get("source", "unknown")` and `data.get("data_type", "general")`. -/
def table_name_of (data : Record) : String :=
  pyGetStr data "source" "unknown" ++ "_" ++ pyGetStr data "data_type" "general"

/-- The directory `os.path.join(self.data_dir, source, data_type)` that
`DataStorage._store_to_file` writes into. -/
def store_to_file_dir (dataDir : String) (data : Record) : String :=
  dataDir ++ "/" ++ pyGetStr data "source" "unknown" ++ "/" ++
    pyGetStr data "data_type" "general"

/-- The asset sanitization of `_store_to_file`:
`asset.replace("/", "-").replace(":", "-")`. -/
def sanitizeAsset (s : String) : String :=
  (s.replace "/" "-").replace ":" "-"

/-- The full file path written by `DataStorage._store_to_file`:
`<data_dir>/<source>/<data_type>/<timestamp>_<asset>.json`. -/
def store_to_file_path (dataDir ts : String) (data : Record) : String :=
  store_to_file_dir dataDir data ++ "/" ++ ts ++ "_" ++
    sanitizeAsset (pyGetStr data "asset" "general") ++ ".json"

/-- The file path written by `DataStorage._store_to_csv`:
directory `os.path.join(self.data_dir, source)` and filename
`f"{data_type}.csv"`. -/
def store_to_csv_path (dataDir : String) (data : Record) : String :=
  dataDir ++ "/" ++ pyGetStr data "source" "unknown" ++ "/" ++
    pyGetStr data "data_type" "general" ++ ".csv"

/-- The concrete record of the spec's schema-inference test case. -/
def sampleRecord : Record :=
  [("source", .VStr "x"), ("data_type", .VStr "y"), ("count", .VInt 3),
   ("label", .VStr "z"), ("ratio", .VFloat (3 / 2)),
   ("tags", .VList [.VStr "a", .VStr "b"]),
   ("meta", .VDict [("k", .VInt 1)])]

/-! Relational sink: `PostgresDataStorage.store_data` / `_create_table`. -/

/-- Observable resource and database events of one `store_data` call, in
order of occurrence: pool checkout, schema inference, CREATE TABLE IF NOT
EXISTS, commits, the INSERT with its column list, rollback, pool return. -/
inductive PgEv where
  | getconn
  | inferSchemaEv (table : String)
  | createTableEv (table : String)
  | commitEv
  | insertEv (table : String) (cols : List String)
  | rollbackEv
  | putconnEv
deriving DecidableEq

/-- Which fallible database step of a `store_data` call raises, if any:
the CREATE TABLE execute, the INSERT execute, or the final commit. -/
inductive FailMode where
  | noFail
  | atCreate
  | atInsert
  | atCommit
deriving DecidableEq

/-- The storage-layer exception type surfaced to the caller
(`StorageError` from `core/exceptions.py`). -/
inductive StoreErr where
  | storageError
deriving DecidableEq

/-- Result of one modelled `store_data` call: the Python return or raised
exception, the database state afterwards, and the event trace. -/
structure StoreOut where
  result : Except StoreErr Unit
  db : DB
  events : List PgEv

/-- The effect of `_create_table`'s `CREATE TABLE IF NOT EXISTS` on the
database state: a no-op when the table already exists, otherwise the table
is created with exactly the given schema. -/
def create_table_if_not_exists (db : DB) (t : String) (s : Schema) : DB :=
  match alistLookup db t with
  | some _ => db
  | none => db ++ [(t, s)]

/-- The INSERT's column list in `store_data`: the keys of
`{k: ... for k, v in data.items() if v is not None}`, in record order. -/
def nonNullCols (data : Record) : List String :=
  (data.filter (fun kv => !isNullV kv.2)).map Prod.fst

/-- `PostgresDataStorage.store_data`, modelled post pool-checkout. The call
derives the table name, always runs `_determine_table_schema`, issues
`CREATE TABLE IF NOT EXISTS` with the inferred schema committed before the
insert, then executes the INSERT over the record's non-null fields and
commits. Any raise inside the `try` is caught: the transaction is rolled
back, a `StorageError` is raised, and the `finally` returns the connection
to the pool on every path. `fm` injects which database step (if any)
raises. -/
def store_data (fm : FailMode) (db : DB) (data : Record) : StoreOut :=
  let t := table_name_of data
  let schema := determine_table_schema data
  match fm with
  | .atCreate =>
      { result := .error .storageError, db := db,
        events := [.getconn, .inferSchemaEv t, .rollbackEv, .putconnEv] }
  | .atInsert =>
      { result := .error .storageError,
        db := create_table_if_not_exists db t schema,
        events := [.getconn, .inferSchemaEv t, .createTableEv t, .commitEv,
                   .rollbackEv, .putconnEv] }
  | .atCommit =>
      { result := .error .storageError,
        db := create_table_if_not_exists db t schema,
        events := [.getconn, .inferSchemaEv t, .createTableEv t, .commitEv,
                   .insertEv t (nonNullCols data), .rollbackEv, .putconnEv] }
  | .noFail =>
      { result := .ok (),
        db := create_table_if_not_exists db t schema,
        events := [.getconn, .inferSchemaEv t, .createTableEv t, .commitEv,
                   .insertEv t (nonNullCols data), .commitEv, .putconnEv] }

/-- A sequence of failure-free `store_data` calls from an initial database
state: final state plus the concatenated event trace. -/
def run_stores (db : DB) : List Record → DB × List PgEv
  | [] => (db, [])
  | r :: rs =>
      let out := store_data .noFail db r
      let rest := run_stores out.db rs
      (rest.1, out.events ++ rest.2)

/-! Collection loop: `BaseDataCollector.run` / `stop` /
`_sleep_until_next_interval`. -/

/-- One cycle's outcome of `collect_data()`: a raised exception, a `None`
return, a single dict, or a list of dicts. -/
inductive ProdResult where
  | raise
  | noneRes
  | dictRes (r : Record)
  | listRes (rs : List Record)

/-- Loop-visible state of `BaseDataCollector.run`: the `running` flag, the
number of caught-and-logged production failures, and the records enqueued
so far (in emission order). -/
structure LoopSt where
  running : Bool
  failures : Nat
  enqueued : List Record

/-- The body of `run`'s `try`/`except`: a raise is caught and logged
(counted); otherwise `if data:` skips falsy results (`None`, empty dict,
empty list), a dict is enqueued as one item, and a list is enqueued
element-wise in order. The `running` flag is untouched. -/
def applyProd (st : LoopSt) : ProdResult → LoopSt
  | .raise => { st with failures := st.failures + 1 }
  | .noneRes => st
  | .dictRes r => if r.isEmpty then st else { st with enqueued := st.enqueued ++ [r] }
  | .listRes rs => if rs.isEmpty then st else { st with enqueued := st.enqueued ++ rs }

/-- Events of the collection loop, in order: each evaluation of the `while
self.running` condition with its value, each `collect_data` call by cycle
number, the instant `stop()` flips the flag (placed during that cycle's
production step), and each `_sleep_until_next_interval` call. -/
inductive LEv where
  | checkEv (b : Bool)
  | produceEv (cycle : Nat)
  | stopSignalEv
  | sleepEv
deriving DecidableEq

/-- `BaseDataCollector.run`, fuel-bounded: each iteration evaluates the
`while self.running` condition; when true it runs `collect_data` (during
which `stop()` may flip the flag, per `stopDuring`), handles the result,
then calls `_sleep_until_next_interval` unconditionally — the source has no
second flag check between the production step and the sleep — and loops. -/
def run_loop (produce : Nat → ProdResult) (stopDuring : Nat → Bool) :
    (fuel cycle : Nat) → LoopSt → List LEv × LoopSt
  | 0, _, st => ([], st)
  | fuel + 1, cycle, st =>
    if st.running then
      let st1 := applyProd st (produce cycle)
      let st2 := if stopDuring cycle then { st1 with running := false } else st1
      let rest := run_loop produce stopDuring fuel (cycle + 1) st2
      (LEv.checkEv true :: LEv.produceEv cycle ::
        ((if stopDuring cycle then [LEv.stopSignalEv] else []) ++
          (LEv.sleepEv :: rest.1)), rest.2)
    else ([LEv.checkEv false], st)

/-- Recognizes the stop-signal event. -/
def isStopSignal : LEv → Bool
  | .stopSignalEv => true
  | _ => false

/-- The suffix of a loop trace strictly after the first stop signal (empty
when no stop occurred). -/
def eventsAfterStop : List LEv → List LEv
  | [] => []
  | e :: rest => if isStopSignal e then rest else eventsAfterStop rest

/-- Recognizes a `collect_data` call event. -/
def isProduceEv : LEv → Bool
  | .produceEv _ => true
  | _ => false

/-- `BaseDataCollector._sleep_until_next_interval`:
`sleep_time = max(0, self.interval - elapsed_time)` where `elapsed_time` is
the time spent since the previous cycle boundary (the production
duration). -/
def sleep_time (interval elapsed : Rat) : Rat :=
  max 0 (interval - elapsed)

/-! Drain worker: `DataCollectorAgent._process_data`. -/

/-- `DataCollectorAgent._process_data`'s record transformation before the
sink call: `if "timestamp" not in data: data["timestamp"] = now` — a dict
assignment of a new key appends it at the end in insertion order; a record
that already has the key is passed to `store_data` unchanged. -/
def process_data (now : String) (data : Record) : Record :=
  if hasKey data "timestamp" then data
  else data ++ [("timestamp", Value.VStr now)]

/-! CAPTCHA solver: `core/utils.py solve_captcha`. -/

/-- Behaviour of the external AntiCaptcha call
`solver.solve_and_return_solution()`: it returns a token string (possibly
empty) or raises. -/
inductive SolverOutcome where
  | returns (token : String)
  | raises

/-- The CAPTCHA exception type (`CaptchaError` from `core/exceptions.py`). -/
inductive CaptchaErr where
  | captchaError
deriving DecidableEq

/-- `solve_captcha` from `core/utils.py`: with a falsy API key it logs and
returns `""`; otherwise it calls the solver inside a `try`: a truthy token
is returned, a falsy token yields `""`, and a raise from the solver is
re-raised as `CaptchaError` to the caller. -/
def solve_captcha (apiKey : String) (solver : SolverOutcome) :
    Except CaptchaErr String :=
  if apiKey = "" then .ok ""
  else
    match solver with
    | .returns token => if token ≠ "" then .ok token else .ok ""
    | .raises => .error .captchaError

/-! Helper lemmas shared by the claim theorems. -/

/-- Association-list lookup distributes over append: the left list is
consulted first. -/
lemma alistLookup_append {α : Type} (l l' : List (String × α)) (k : String) :
    alistLookup (l ++ l') k =
      match alistLookup l k with
      | some v => some v
      | none => alistLookup l' k := by
  induction l with
  | nil => simp [alistLookup]
  | cons kv rest ih =>
    obtain ⟨k1, v1⟩ := kv
    by_cases h : k1 = k
    · simp [alistLookup, h]
    · simp [alistLookup, h, ih]

/-- A key reported absent by `hasKey` has no binding. -/
lemma alistLookup_eq_none_of_hasKey_false {data : Record} {k : String}
    (h : hasKey data k = false) : alistLookup data k = none := by
  unfold hasKey at h
  cases hl : alistLookup data k with
  | none => rfl
  | some v => rw [hl] at h; simp at h

/-- String concatenation is associative. -/
lemma string_append_assoc (a b c : String) : a ++ b ++ c = a ++ (b ++ c) := by
  apply String.ext
  simp [String.data_append]

/-- CREATE TABLE IF NOT EXISTS never alters an existing table's schema. -/
lemma create_table_preserves {db : DB} {t : String} {s : Schema}
    (h : alistLookup db t = some s) (t' : String) (s' : Schema) :
    alistLookup (create_table_if_not_exists db t' s') t = some s := by
  unfold create_table_if_not_exists
  cases hl : alistLookup db t' with
  | some v => exact h
  | none => rw [alistLookup_append, h]

/-- CREATE TABLE IF NOT EXISTS on a fresh name installs exactly the given
schema. -/
lemma create_table_fresh {db : DB} {t : String} (s : Schema)
    (h : alistLookup db t = none) :
    alistLookup (create_table_if_not_exists db t s) t = some s := by
  unfold create_table_if_not_exists
  rw [h, alistLookup_append, h]
  simp [alistLookup]

/-- A single `store_data` call, under any failure mode, never alters the
schema of an already existing table. -/
lemma store_data_preserves_table (fm : FailMode) (db : DB) (data : Record)
    {t : String} {s : Schema} (h : alistLookup db t = some s) :
    alistLookup (store_data fm db data).db t = some s := by
  cases fm <;> simp only [store_data] <;>
    first
      | exact h
      | exact create_table_preserves h _ _

/-- A sequence of `store_data` calls never alters the schema of an already
existing table. -/
lemma run_stores_preserves_table (rs : List Record) (db : DB)
    {t : String} {s : Schema} (h : alistLookup db t = some s) :
    alistLookup (run_stores db rs).1 t = some s := by
  induction rs generalizing db with
  | nil => exact h
  | cons r rest ih =>
    exact ih _ (store_data_preserves_table .noFail db r h)

/-- The `try`/`except` handling of one production result never changes the
`running` flag. -/
lemma applyProd_running (st : LoopSt) (pr : ProdResult) :
    (applyProd st pr).running = st.running := by
  cases pr <;> simp only [applyProd] <;> first | rfl | (split <;> rfl)

/-- Once the `running` flag is false, the loop emits only the final failed
condition check: no production call, no sleep, no stop signal. -/
lemma run_loop_stopped_trace (p : Nat → ProdResult) (sd : Nat → Bool)
    (fuel cycle : Nat) (st : LoopSt) (h : st.running = false) :
    (run_loop p sd fuel cycle st).1 = [] ∨
    (run_loop p sd fuel cycle st).1 = [LEv.checkEv false] := by
  cases fuel with
  | zero => exact Or.inl rfl
  | succ n => right; simp [run_loop, h]

/-- A nonempty list whose members all pass `isinstance(item, (int, float))`
has a member failing `isinstance(item, str)`, so the all-strings branch is
not taken. -/
lemma all_isStrV_false_of_intOrFloat {l : List Value} (hne : l ≠ [])
    (h : l.all isIntOrFloat = true) : l.all isStrV = false := by
  cases l with
  | nil => exact absurd rfl hne
  | cons x xs =>
    simp only [List.all_cons, Bool.and_eq_true] at h
    have hx : isStrV x = false := by
      cases x <;> simp_all [isIntOrFloat, isStrV]
    simp [List.all_cons, hx]

/-! Claim theorems. -/

/-- C1: the relational sink's schema inference maps each field by its
value's type — a field named `raw_data` to JSONB regardless of value, a
string to TEXT, an integer to BIGINT, a float to DOUBLE PRECISION, a list
of strings to TEXT[], a (nonempty) list of numbers to DOUBLE PRECISION[],
any other list or a nested mapping to JSONB — and a null-valued field is
omitted from the inferred schema entirely; on the spec's concrete record,
`count` maps to BIGINT, `label` to TEXT, `ratio` to DOUBLE PRECISION,
`tags` to TEXT[], and `meta` to JSONB. -/
theorem c1_schema_inference_by_value_type :
    (∀ v, determine_table_schema [("raw_data", v)] = [("raw_data", "JSONB")]) ∧
    (∀ k s, k ≠ "raw_data" →
      determine_table_schema [(k, Value.VStr s)] = [(k, "TEXT")]) ∧
    (∀ k n, k ≠ "raw_data" →
      determine_table_schema [(k, Value.VInt n)] = [(k, "BIGINT")]) ∧
    (∀ k q, k ≠ "raw_data" →
      determine_table_schema [(k, Value.VFloat q)] = [(k, "DOUBLE PRECISION")]) ∧
    (∀ (k : String) (ss : List String), k ≠ "raw_data" →
      determine_table_schema [(k, Value.VList (ss.map Value.VStr))] = [(k, "TEXT[]")]) ∧
    (∀ (k : String) (l : List Value), k ≠ "raw_data" → l ≠ [] →
      l.all isIntOrFloat = true →
      determine_table_schema [(k, Value.VList l)] = [(k, "DOUBLE PRECISION[]")]) ∧
    (∀ (k : String) (l : List Value), k ≠ "raw_data" → l.all isStrV = false →
      l.all isIntOrFloat = false →
      determine_table_schema [(k, Value.VList l)] = [(k, "JSONB")]) ∧
    (∀ k fs, k ≠ "raw_data" →
      determine_table_schema [(k, Value.VDict fs)] = [(k, "JSONB")]) ∧
    (∀ k, k ≠ "raw_data" → determine_table_schema [(k, Value.VNull)] = []) ∧
    (alistLookup (determine_table_schema sampleRecord) "count" = some "BIGINT" ∧
     alistLookup (determine_table_schema sampleRecord) "label" = some "TEXT" ∧
     alistLookup (determine_table_schema sampleRecord) "ratio" = some "DOUBLE PRECISION" ∧
     alistLookup (determine_table_schema sampleRecord) "tags" = some "TEXT[]" ∧
     alistLookup (determine_table_schema sampleRecord) "meta" = some "JSONB") := by
  refine ⟨?_, ?_, ?_, ?_, ?_, ?_, ?_, ?_, ?_, ?_⟩
  · intro v; simp [determine_table_schema, inferColType]
  · intro k s h; simp [determine_table_schema, inferColType, h]
  · intro k n h; simp [determine_table_schema, inferColType, h]
  · intro k q h; simp [determine_table_schema, inferColType, h]
  · intro k ss h
    have hall : (ss.map Value.VStr).all isStrV = true := by
      simp [List.all_map, Function.comp, isStrV]
    simp [determine_table_schema, inferColType, h, hall, -List.all_eq_true]
  · intro k l h hne hall
    have hstr := all_isStrV_false_of_intOrFloat hne hall
    simp [determine_table_schema, inferColType, h, hstr, hall, -List.all_eq_true]
  · intro k l h hstr hnum
    simp [determine_table_schema, inferColType, h, hstr, hnum, -List.all_eq_true]
  · intro k fs h; simp [determine_table_schema, inferColType, h]
  · intro k h; simp [determine_table_schema, inferColType, h]
  · exact ⟨by decide, by decide, by decide, by decide, by decide⟩

/-- C1 witness: the general rules of `c1_schema_inference_by_value_type`
instantiated at concrete fields of the spec's record. -/
theorem c1_schema_inference_witness :
    determine_table_schema [("label", Value.VStr "z")] = [("label", "TEXT")] ∧
    determine_table_schema [("count", Value.VInt 3)] = [("count", "BIGINT")] ∧
    determine_table_schema [("note", Value.VNull)] = [] :=
  ⟨c1_schema_inference_by_value_type.2.1 "label" "z" (by decide),
   c1_schema_inference_by_value_type.2.2.1 "count" 3 (by decide),
   c1_schema_inference_by_value_type.2.2.2.2.2.2.2.2.1 "note" (by decide)⟩

/-- C9: a boolean-valued field (not named `raw_data`) is assigned BIGINT by
schema inference, because Python's `isinstance(value, int)` is true for
booleans and that branch precedes any boolean-specific rule (the source has
none). -/
theorem c9_bool_field_maps_to_bigint :
    ∀ k b, k ≠ "raw_data" →
      determine_table_schema [(k, Value.VBool b)] = [(k, "BIGINT")] := by
  intro k b h
  simp [determine_table_schema, inferColType, h]

/-- C9 witness: a concrete boolean field infers BIGINT. -/
theorem c9_bool_field_witness :
    determine_table_schema [("is_active", Value.VBool true)] =
      [("is_active", "BIGINT")] :=
  c9_bool_field_maps_to_bigint "is_active" true (by decide)

/-- C3: the computed sleep is `max(0, I - d)` for interval `I` and elapsed
production duration `d`: it is never negative, it is exactly zero whenever
`d ≥ I` (no catch-up burst), and it is exactly the remaining `I - d`
whenever `d ≤ I`. -/
theorem c3_sleep_never_negative :
    ∀ I d : Rat, 0 ≤ sleep_time I d ∧
      (I ≤ d → sleep_time I d = 0) ∧
      (d ≤ I → sleep_time I d = I - d) := by
  intro I d
  refine ⟨le_max_left 0 _, fun h => ?_, fun h => ?_⟩
  · exact max_eq_left (sub_nonpos.mpr h)
  · exact max_eq_right (sub_nonneg.mpr h)

/-- C3 witness: a 60-second interval with a 75-second production sleeps 0;
with a 45-second production it sleeps 15. -/
theorem c3_sleep_witness : sleep_time 60 75 = 0 ∧ sleep_time 60 45 = 15 := by
  refine ⟨(c3_sleep_never_negative 60 75).2.1 (by norm_num), ?_⟩
  rw [(c3_sleep_never_negative 60 45).2.2 (by norm_num)]
  norm_num

/-- C2 counterexample: `store_data` keeps no record of known tables, so
storing the same record twice runs schema inference twice for table `x_y`
— the second time although the table already exists after the first call.
This refutes "schema inference is performed at most once per process
lifetime, only when the table is not yet known to exist". -/
theorem c2_counterexample :
    (run_stores [] [sampleRecord, sampleRecord]).2.count (PgEv.inferSchemaEv "x_y") = 2 ∧
    (alistLookup (run_stores [] [sampleRecord]).1 "x_y").isSome = true := by
  constructor <;> decide

/-- C2 amended: schema inference runs on every `store_data` call, but table
creation is CREATE TABLE IF NOT EXISTS, so the first record's inferred
schema wins: an existing table's schema is never changed by any later
store (under any failure mode, and across any sequence of stores), and a
table absent from the database gets exactly the schema inferred from the
first record stored under its name. -/
theorem c2_first_schema_wins :
    (∀ fm db data t s, alistLookup db t = some s →
      alistLookup (store_data fm db data).db t = some s) ∧
    (∀ rs db t s, alistLookup db t = some s →
      alistLookup (run_stores db rs).1 t = some s) ∧
    (∀ db data, alistLookup db (table_name_of data) = none →
      alistLookup (store_data .noFail db data).db (table_name_of data)
        = some (determine_table_schema data)) := by
  refine ⟨?_, ?_, ?_⟩
  · intro fm db data t s h
    exact store_data_preserves_table fm db data h
  · intro rs db t s h
    exact run_stores_preserves_table rs db h
  · intro db data h
    simpa [store_data] using create_table_fresh (determine_table_schema data) h

/-- C2 witness: the amended invariant instantiated concretely — a table
created by a first store keeps its schema after a second store of a record
with new fields, and a fresh store installs the inferred schema. -/
theorem c2_first_schema_wins_witness :
    alistLookup (store_data .noFail (store_data .noFail [] sampleRecord).db
      (sampleRecord ++ [("extra", Value.VInt 7)])).db "x_y"
        = some (determine_table_schema sampleRecord) ∧
    alistLookup (store_data .noFail [] sampleRecord).db (table_name_of sampleRecord)
        = some (determine_table_schema sampleRecord) := by
  have h2 := c2_first_schema_wins.2.2 [] sampleRecord (by decide)
  refine ⟨?_, h2⟩
  have ht : table_name_of sampleRecord = "x_y" := by decide
  exact c2_first_schema_wins.1 .noFail _ _ "x_y" _ (by rw [← ht]; exact h2)

/-- C4: a failure of the production step is absorbed inside the loop body —
with no stop signal the `running` flag stays true no matter what the
producer does — and a collector whose production step raises on every call
is still running after 5 cycles with a failure count of 5 and nothing
enqueued. -/
theorem c4_failure_isolation :
    (∀ (p : Nat → ProdResult) (fuel cycle : Nat) (st : LoopSt),
      st.running = true →
      ((run_loop p (fun _ => false) fuel cycle st).2).running = true) ∧
    ((run_loop (fun _ => ProdResult.raise) (fun _ => false) 5 0
        ⟨true, 0, []⟩).2.running = true ∧
     (run_loop (fun _ => ProdResult.raise) (fun _ => false) 5 0
        ⟨true, 0, []⟩).2.failures = 5 ∧
     (run_loop (fun _ => ProdResult.raise) (fun _ => false) 5 0
        ⟨true, 0, []⟩).2.enqueued = []) := by
  refine ⟨?_, rfl, rfl, rfl⟩
  intro p fuel
  induction fuel with
  | zero => intro cycle st h; exact h
  | succ n ih =>
    intro cycle st h
    simp only [run_loop, h, if_true, Bool.false_eq_true, reduceIte]
    exact ih (cycle + 1) _ (by rw [applyProd_running]; exact h)

/-- C4 witness: the failure-isolation part applied to a concrete 3-cycle
run. -/
theorem c4_failure_isolation_witness :
    ((run_loop (fun _ => ProdResult.raise) (fun _ => false) 3 0
      ⟨true, 0, []⟩).2).running = true :=
  c4_failure_isolation.1 (fun _ => ProdResult.raise) 3 0 ⟨true, 0, []⟩ rfl

/-- C5 counterexample: when `stop()` flips the flag during cycle 0's
production call, the loop still performs that cycle's sleep — the trace
after the stop signal is a sleep followed by the failed condition check —
refuting "once stop flips the flag the loop never begins a new sleep"
(the source checks `self.running` only at the top of the `while`, not
again before sleeping). -/
theorem c5_counterexample :
    eventsAfterStop (run_loop (fun _ => ProdResult.noneRes) (fun n => n == 0) 2 0
        ⟨true, 0, []⟩).1 = [LEv.sleepEv, LEv.checkEv false] ∧
    ¬((eventsAfterStop (run_loop (fun _ => ProdResult.noneRes) (fun n => n == 0) 2 0
        ⟨true, 0, []⟩).1).count LEv.sleepEv = 0) := by
  constructor <;> decide

/-- C5 amended: the loop checks the `running` flag only at the top of each
cycle; after `stop()` flips the flag the loop still performs the
already-started cycle's single sleep and then exits at the next check — so
for every loop run, at most one sleep and no further production call occur
after the stop signal (shutdown latency is bounded by the remaining
production time plus one full sleep, not by `min` of them). -/
theorem c5_at_most_one_sleep_after_stop :
    ∀ (p : Nat → ProdResult) (sd : Nat → Bool) (fuel cycle : Nat) (st : LoopSt),
      ((eventsAfterStop (run_loop p sd fuel cycle st).1).count LEv.sleepEv ≤ 1) ∧
      ((eventsAfterStop (run_loop p sd fuel cycle st).1).countP isProduceEv = 0) := by
  intro p sd fuel
  induction fuel with
  | zero => intro cycle st; simp [run_loop, eventsAfterStop]
  | succ n ih =>
    intro cycle st
    by_cases h : st.running
    · simp only [run_loop, h, if_true]
      by_cases hs : sd cycle
      · simp only [hs, if_true]
        simp only [eventsAfterStop, isStopSignal, List.singleton_append,
          if_false, if_true, Bool.false_eq_true, reduceIte]
        rcases run_loop_stopped_trace p sd n (cycle + 1)
            { applyProd st (p cycle) with running := false } rfl with h1 | h1 <;>
          rw [h1] <;> constructor <;> decide
      · simp only [hs, if_false]
        simp only [eventsAfterStop, isStopSignal, List.nil_append,
          Bool.false_eq_true, reduceIte]
        exact ih (cycle + 1) _
    · have hb : st.running = false := by
        cases hr : st.running
        · rfl
        · exact absurd hr h
      simp [run_loop, hb, eventsAfterStop, isStopSignal]

/-- C6: the drain worker passes a dequeued record to the sink unchanged
when it already has a `timestamp` field; otherwise exactly one field
(`timestamp`, set to the capture time) is appended, every other field keeps
its value, and the result's length is one more than the input's. -/
theorem c6_timestamp_injection_frame :
    ∀ (now : String) (data : Record),
      (hasKey data "timestamp" = true → process_data now data = data) ∧
      (hasKey data "timestamp" = false →
        process_data now data = data ++ [("timestamp", Value.VStr now)] ∧
        alistLookup (process_data now data) "timestamp" = some (Value.VStr now) ∧
        (∀ k, k ≠ "timestamp" →
          alistLookup (process_data now data) k = alistLookup data k) ∧
        (process_data now data).length = data.length + 1) := by
  intro now data
  constructor
  · intro h; simp [process_data, h]
  · intro h
    have hn : alistLookup data "timestamp" = none :=
      alistLookup_eq_none_of_hasKey_false h
    have hpd : process_data now data = data ++ [("timestamp", Value.VStr now)] := by
      simp [process_data, h]
    refine ⟨hpd, ?_, ?_, ?_⟩
    · rw [hpd, alistLookup_append, hn]
      simp [alistLookup]
    · intro k hk
      rw [hpd, alistLookup_append]
      cases hl : alistLookup data k with
      | some v => rfl
      | none => simp [alistLookup, Ne.symm hk]
    · rw [hpd]; simp

/-- C6 witness: the injection theorem applied to a record without a
timestamp and to one that already has it. -/
theorem c6_timestamp_injection_witness :
    process_data "T0" [("source", Value.VStr "x")] =
      [("source", Value.VStr "x"), ("timestamp", Value.VStr "T0")] ∧
    process_data "T0" [("timestamp", Value.VStr "T1"), ("source", Value.VStr "x")] =
      [("timestamp", Value.VStr "T1"), ("source", Value.VStr "x")] :=
  ⟨((c6_timestamp_injection_frame "T0" [("source", Value.VStr "x")]).2 rfl).1,
   (c6_timestamp_injection_frame "T0"
     [("timestamp", Value.VStr "T1"), ("source", Value.VStr "x")]).1 rfl⟩

/-- C7: every `store_data` call begins with a pool checkout and ends — on
success and on every failure path alike — by returning the connection to
the pool exactly once; on any failure during the store the transaction is
rolled back and a `StorageError` is raised to the caller, while a
failure-free call returns normally. -/
theorem c7_connection_release_all_paths :
    ∀ (fm : FailMode) (db : DB) (data : Record),
      ((store_data fm db data).events.head? = some PgEv.getconn) ∧
      ((store_data fm db data).events.getLast? = some PgEv.putconnEv) ∧
      ((store_data fm db data).events.count PgEv.putconnEv = 1) ∧
      (fm ≠ .noFail →
        (store_data fm db data).result = .error .storageError ∧
        PgEv.rollbackEv ∈ (store_data fm db data).events) ∧
      (fm = .noFail → (store_data fm db data).result = .ok ()) := by
  intro fm db data
  cases fm with
  | noFail =>
      exact ⟨rfl, rfl, rfl, fun h => absurd rfl h, fun _ => rfl⟩
  | atCreate =>
      exact ⟨rfl, rfl, rfl, fun _ => ⟨rfl, by simp [store_data]⟩, fun h => nomatch h⟩
  | atInsert =>
      exact ⟨rfl, rfl, rfl, fun _ => ⟨rfl, by simp [store_data]⟩, fun h => nomatch h⟩
  | atCommit =>
      exact ⟨rfl, rfl, rfl, fun _ => ⟨rfl, by simp [store_data]⟩, fun h => nomatch h⟩

/-- C7 witness: a store whose INSERT fails still returns the connection,
rolls back, and surfaces a `StorageError`. -/
theorem c7_connection_release_witness :
    (store_data .atInsert [] sampleRecord).result = .error .storageError ∧
    PgEv.rollbackEv ∈ (store_data .atInsert [] sampleRecord).events :=
  (c7_connection_release_all_paths .atInsert [] sampleRecord).2.2.2.1 (by decide)

/-- C8 counterexample: when the external solver itself raises, the shared
CAPTCHA-solver function does not return the empty string — it re-raises the
failure as a `CaptchaError` to its caller, refuting "never propagates an
exception to its caller". -/
theorem c8_counterexample :
    solve_captcha "key" SolverOutcome.raises = .error CaptchaErr.captchaError := rfl

/-- C8 amended: the CAPTCHA solver returns a string in the no-raise cases —
the empty string when no API key is configured (for any solver behaviour)
and the solver's token (empty on solver-reported failure) otherwise — but
when the underlying solver raises, it propagates a `CaptchaError` to its
caller (which the error taxonomy expects calling collectors to recover
from). -/
theorem c8_token_or_empty_or_captcha_error :
    ∀ (apiKey : String) (solver : SolverOutcome),
      (apiKey = "" → solve_captcha apiKey solver = .ok "") ∧
      (∀ tok, apiKey ≠ "" → solver = .returns tok →
        solve_captcha apiKey solver = .ok tok) ∧
      (apiKey ≠ "" → solver = .raises →
        solve_captcha apiKey solver = .error .captchaError) := by
  intro apiKey solver
  refine ⟨fun h => by simp [solve_captcha, h], ?_, ?_⟩
  · intro tok hk hs
    subst hs
    by_cases ht : tok = ""
    · subst ht; simp [solve_captcha, hk]
    · simp [solve_captcha, hk, ht]
  · intro hk hs
    subst hs
    simp [solve_captcha, hk]

/-- C8 witness: the amended behaviour at concrete inputs — a successful
solve returns the token, and a missing API key returns the empty string. -/
theorem c8_token_witness :
    solve_captcha "key" (SolverOutcome.returns "tok123") = .ok "tok123" ∧
    solve_captcha "" SolverOutcome.raises = .ok "" :=
  ⟨(c8_token_or_empty_or_captcha_error "key" (SolverOutcome.returns "tok123")).2.1
      "tok123" (by decide) rfl,
   (c8_token_or_empty_or_captcha_error "" SolverOutcome.raises).1 rfl⟩

/-- C10: a record lacking a `source` field (respectively `data_type`) gets
the defaults `unknown` (respectively `general`) in every storage variant:
the file sink's directory is `<data_dir>/unknown/general`, the CSV sink's
file is `<data_dir>/unknown/general.csv`, and the relational sink's table
is `unknown_general`. -/
theorem c10_default_source_datatype :
    ∀ (dataDir : String) (data : Record),
      alistLookup data "source" = none → alistLookup data "data_type" = none →
      store_to_file_dir dataDir data = dataDir ++ "/unknown/general" ∧
      store_to_csv_path dataDir data = dataDir ++ "/unknown/general.csv" ∧
      table_name_of data = "unknown_general" := by
  intro dataDir data hs hd
  refine ⟨?_, ?_, ?_⟩
  · rw [store_to_file_dir]
    simp only [pyGetStr, hs, hd]
    rw [string_append_assoc, string_append_assoc, string_append_assoc]
    rfl
  · rw [store_to_csv_path]
    simp only [pyGetStr, hs, hd]
    rw [string_append_assoc, string_append_assoc, string_append_assoc,
      string_append_assoc]
    rfl
  · rw [table_name_of]
    simp only [pyGetStr, hs, hd]
    rfl

/-- C10 witness: the defaults applied to a concrete record with neither
`source` nor `data_type`. -/
theorem c10_default_witness :
    store_to_file_dir "data" [("count", Value.VInt 3)] = "data/unknown/general" ∧
    store_to_csv_path "data" [("count", Value.VInt 3)] = "data/unknown/general.csv" ∧
    table_name_of [("count", Value.VInt 3)] = "unknown_general" :=
  c10_default_source_datatype "data" [("count", Value.VInt 3)] rfl rfl
